import Mathlib

/-!
Shallow embedding of the streaming playback session manager
(`LiveMusicHelper` in the repository's `utils` source file) together with
the external surface it drives: the playback state machine, the lookahead
scheduler over `nextStartTime`, the filtered-prompt set, the prompt
channel, and the connection lifecycle.

Modelling decisions:
* Device time (`audioContext.currentTime`) and buffer durations are
  rationals (`Rat`); the code uses floating point but no claim depends on
  rounding.
* Effects are made observable: dispatched `CustomEvent`s are logged in
  `events`, outbound control messages to the remote session in `outbound`,
  gain-automation calls in `gainLog`, `source.start(t)` calls in
  `scheduled`, armed `setTimeout` callbacks in `timers`, and the number of
  `aiFactory()` invocations in `factoryCalls`.
* Promises are collapsed to handles: `sessionPromise : Option Nat` mirrors
  the pending-connection reference, and awaiting it yields that handle.
* Async interleaving is modelled by an explicit event alphabet `Ev` and a
  `step` function; a trace from `init` with monotone timestamps and
  nonnegative durations describes one possible execution.
-/

inductive PlaybackState where
  | stopped
  | loading
  | playing
  | paused
deriving DecidableEq, Repr

structure Prompt where
  promptId : String
  text : String
  weight : Rat
  cc : Int
  color : String
deriving DecidableEq, Repr

/-- Outbound control messages sent on the live-session transport. -/
inductive OutMsg where
  | play
  | pause
  | stop
  | setPrompts (ps : List Prompt)
deriving DecidableEq, Repr

/-- `CustomEvent`s dispatched on the helper (the observable surface). -/
inductive UiEvent where
  | stateChanged (s : PlaybackState)
  | error (msg : String)
  | filteredPrompt (text : String)
deriving DecidableEq, Repr

/-- Gain-automation calls on the output node. -/
inductive GainEvent where
  | setValue (v t : Rat)
  | linearRampTo (v t : Rat)
deriving DecidableEq, Repr

structure LiveMusicHelper where
  session : Option Nat
  sessionPromise : Option Nat
  connectionError : Bool
  filteredPrompts : List String
  nextStartTime : Rat
  bufferTime : Rat
  playbackState : PlaybackState
  prompts : List (String × Prompt)
  sessionId : Option Nat
  now : Rat
  events : List UiEvent
  outbound : List OutMsg
  gainLog : List GainEvent
  scheduled : List Rat
  timers : List Rat
  factoryCalls : Nat
  outputNodeGen : Nat
deriving DecidableEq, Repr

namespace LiveMusicHelper

/-- The constructor's field initialisers. -/
def init : LiveMusicHelper where
  session := none
  sessionPromise := none
  connectionError := true
  filteredPrompts := []
  nextStartTime := 0
  bufferTime := 2
  playbackState := .stopped
  prompts := []
  sessionId := none
  now := 0
  events := []
  outbound := []
  gainLog := []
  scheduled := []
  timers := []
  factoryCalls := 0
  outputNodeGen := 0

/-- `connect()`: awaits `aiFactory()` (counted in `factoryCalls`), mints a
fresh opaque session id, and installs the pending connection promise.
Returns the handle that awaiting that promise yields. -/
def connect (s : LiveMusicHelper) : LiveMusicHelper × Nat :=
  let h := s.factoryCalls
  ({ s with
      factoryCalls := s.factoryCalls + 1
      sessionId := some h
      sessionPromise := some h }, h)

/-- `getSession()`: reuse the in-flight promise when present, otherwise
start `connect()` and store its promise. -/
def getSession (s : LiveMusicHelper) : LiveMusicHelper × Nat :=
  match s.sessionPromise with
  | some p => (s, p)
  | none => connect s

/-- `setPlaybackState(state)`: store the state and dispatch
`playback-state-changed`. -/
def setPlaybackState (s : LiveMusicHelper) (st : PlaybackState) : LiveMusicHelper :=
  { s with
      playbackState := st
      events := s.events ++ [UiEvent.stateChanged st] }

/-- `processAudioChunks(audioChunks)` at device time `s.now`; `d` is the
duration of the buffer decoded from the first chunk of the batch. -/
def processAudioChunks (s : LiveMusicHelper) (d : Rat) : LiveMusicHelper :=
  if s.playbackState = .paused ∨ s.playbackState = .stopped then s
  else
    let s1 :=
      if s.nextStartTime = 0 then
        { s with
            nextStartTime := s.now + s.bufferTime
            timers := s.timers ++ [s.now + s.bufferTime] }
      else s
    if s1.nextStartTime < s1.now then
      { setPlaybackState s1 .loading with nextStartTime := 0 }
    else
      { s1 with
          scheduled := s1.scheduled ++ [s1.nextStartTime]
          nextStartTime := s1.nextStartTime + d }

/-- The `setTimeout` callback armed when the timeline is anchored: it sets
the playback state to `playing` with no further checks. -/
def fireBufferTimer (s : LiveMusicHelper) : LiveMusicHelper :=
  setPlaybackState s .playing

/-- The filter applied by the `activePrompts` getter: values of a snapshot
whose text is not in the filtered set and whose weight is nonzero. -/
def activeOf (filtered : List String) (ps : List (String × Prompt)) : List Prompt :=
  (ps.map Prod.snd).filter
    (fun p => !(filtered.contains p.text) && p.weight != 0)

/-- The `activePrompts` getter. -/
def activePrompts (s : LiveMusicHelper) : List Prompt :=
  activeOf s.filteredPrompts s.prompts

/-- `pause()`: best-effort `session.pause()`, transition to `paused`, fade
the gain 1→0 over 0.1 s, reset `nextStartTime`, and rebuild the output
node. -/
def pause (s : LiveMusicHelper) : LiveMusicHelper :=
  let s1 := { s with
      outbound := if s.session.isSome then s.outbound ++ [OutMsg.pause] else s.outbound }
  let s2 := setPlaybackState s1 .paused
  { s2 with
      gainLog := s2.gainLog ++
        [GainEvent.setValue 1 s2.now, GainEvent.linearRampTo 0 (s2.now + 1/10)]
      nextStartTime := 0
      outputNodeGen := s2.outputNodeGen + 1 }

/-- `stop()`: best-effort `session.stop()`, transition to `stopped`,
restore the gain 0→1 over 0.1 s, reset `nextStartTime`, and discard the
session and the pending promise. -/
def stop (s : LiveMusicHelper) : LiveMusicHelper :=
  let s1 := { s with
      outbound := if s.session.isSome then s.outbound ++ [OutMsg.stop] else s.outbound }
  let s2 := setPlaybackState s1 .stopped
  { s2 with
      gainLog := s2.gainLog ++
        [GainEvent.setValue 0 s2.now, GainEvent.linearRampTo 1 (s2.now + 1/10)]
      nextStartTime := 0
      session := none
      sessionPromise := none }

/-- `handleDisconnect()`: mark the connection errored, force `stopped`,
restore the gain 0→1 over 0.1 s, reset `nextStartTime`, and discard the
session and the pending promise. It sends nothing on the transport. -/
def handleDisconnect (s : LiveMusicHelper) : LiveMusicHelper :=
  let s1 := { s with connectionError := true }
  let s2 := setPlaybackState s1 .stopped
  { s2 with
      gainLog := s2.gainLog ++
        [GainEvent.setValue 0 s2.now, GainEvent.linearRampTo 1 (s2.now + 1/10)]
      nextStartTime := 0
      session := none
      sessionPromise := none }

/-- The transport `onerror` callback: `handleDisconnect()` then an error
notification. -/
def onTransportError (s : LiveMusicHelper) : LiveMusicHelper :=
  let s1 := handleDisconnect s
  { s1 with events := s1.events ++ [UiEvent.error "Connection error, please restart audio."] }

/-- The transport `onclose` callback: `handleDisconnect()` then an error
notification. -/
def onTransportClose (s : LiveMusicHelper) : LiveMusicHelper :=
  let s1 := handleDisconnect s
  { s1 with events := s1.events ++ [UiEvent.error "Connection closed, please restart audio."] }

/-- The body of the throttled `setWeightedPrompts` on one effective
invocation; `sendOk` is whether `session.setWeightedPrompts` resolves
(`false` = the transport send rejects). -/
def setWeightedPrompts (s : LiveMusicHelper) (ps : List (String × Prompt))
    (sendOk : Bool) : LiveMusicHelper :=
  let s0 := { s with prompts := ps }
  if (activePrompts s0).isEmpty then
    pause { s0 with
      events := s0.events ++ [UiEvent.error "There needs to be one active prompt to play."] }
  else if s0.session.isNone then s0
  else if sendOk then
    { s0 with outbound := s0.outbound ++ [OutMsg.setPrompts (activePrompts s0)] }
  else
    pause { s0 with
      events := s0.events ++ [UiEvent.error "send failed"] }

/-- `play()`: transition to `loading`, acquire the session, flush the
stored prompt snapshot, best-effort `session.play()`, and ramp the gain
0→1 over 0.1 s. `promptOk` and `playOk` are whether the two transport
sends succeed. -/
def play (s : LiveMusicHelper) (promptOk playOk : Bool) : LiveMusicHelper :=
  let s1 := setPlaybackState s .loading
  let pr := getSession s1
  let s2 := { pr.1 with session := some pr.2 }
  let s3 := setWeightedPrompts s2 s2.prompts promptOk
  let s4 := { s3 with
      outbound := if playOk then s3.outbound ++ [OutMsg.play] else s3.outbound }
  { s4 with
      gainLog := s4.gainLog ++
        [GainEvent.setValue 0 s4.now, GainEvent.linearRampTo 1 (s4.now + 1/10)] }

/-- `playPause()`: dispatch on the current playback state. -/
def playPause (s : LiveMusicHelper) (promptOk playOk : Bool) : LiveMusicHelper :=
  match s.playbackState with
  | .playing => pause s
  | .paused => play s promptOk playOk
  | .stopped => play s promptOk playOk
  | .loading => stop s

/-- The `onmessage` branch for `filteredPrompt`: union the text into
`filteredPrompts` and dispatch a `filtered-prompt` notification. -/
def handleFilteredPrompt (s : LiveMusicHelper) (txt : String) : LiveMusicHelper :=
  { s with
      filteredPrompts :=
        if s.filteredPrompts.contains txt then s.filteredPrompts
        else s.filteredPrompts ++ [txt]
      events := s.events ++ [UiEvent.filteredPrompt txt] }

/-- The `onmessage` branch for `setupComplete`. -/
def handleSetupComplete (s : LiveMusicHelper) : LiveMusicHelper :=
  { s with connectionError := false }

end LiveMusicHelper

/-- The asynchronous events that can reach the helper, each stamped with
the device time at which its handler runs. `tick` is the passage of time
with no event. -/
inductive Ev where
  | frag (t d : Rat)
  | timerFire (t : Rat)
  | tick (t : Rat)
  | userPlay (t : Rat) (promptOk playOk : Bool)
  | userPause (t : Rat)
  | userStop (t : Rat)
  | userPlayPause (t : Rat) (promptOk playOk : Bool)
  | setPromptsCall (t : Rat) (ps : List (String × Prompt)) (sendOk : Bool)
  | transportError (t : Rat)
  | transportClose (t : Rat)
  | filteredMsg (t : Rat) (txt : String)
  | setupMsg (t : Rat)
deriving DecidableEq, Repr

namespace Ev

def time : Ev → Rat
  | .frag t _ => t
  | .timerFire t => t
  | .tick t => t
  | .userPlay t _ _ => t
  | .userPause t => t
  | .userStop t => t
  | .userPlayPause t _ _ => t
  | .setPromptsCall t _ _ => t
  | .transportError t => t
  | .transportClose t => t
  | .filteredMsg t _ => t
  | .setupMsg t => t

/-- Payload well-formedness: decoded buffer durations are nonnegative. -/
def durOk : Ev → Bool
  | .frag _ d => decide (0 ≤ d)
  | _ => true

end Ev

namespace LiveMusicHelper

/-- One interleaving step: advance the device clock to the event's time,
then run the corresponding handler. A `timerFire` consumes the earliest
armed `setTimeout` callback; with none armed it is a no-op. -/
def step (s : LiveMusicHelper) (e : Ev) : LiveMusicHelper :=
  let s := { s with now := e.time }
  match e with
  | .frag _ d => processAudioChunks s d
  | .timerFire _ =>
    match s.timers with
    | [] => s
    | _ :: rest => fireBufferTimer { s with timers := rest }
  | .tick _ => s
  | .userPlay _ pOk plOk => play s pOk plOk
  | .userPause _ => pause s
  | .userStop _ => stop s
  | .userPlayPause _ pOk plOk => playPause s pOk plOk
  | .setPromptsCall _ ps ok => setWeightedPrompts s ps ok
  | .transportError _ => onTransportError s
  | .transportClose _ => onTransportClose s
  | .filteredMsg _ txt => handleFilteredPrompt s txt
  | .setupMsg _ => handleSetupComplete s

def run (s : LiveMusicHelper) (es : List Ev) : LiveMusicHelper :=
  es.foldl step s

/-- A trace is valid from lower time bound `t0` when its timestamps are
nondecreasing starting at `t0` and its payloads are well formed. -/
def validFrom (t0 : Rat) : List Ev → Bool
  | [] => true
  | e :: es => decide (t0 ≤ e.time) && e.durOk && validFrom e.time es

/-- The invariant carried through every reachable state: the device clock,
the lookahead, and the scheduled position are never negative. -/
def Inv (s : LiveMusicHelper) : Prop :=
  0 ≤ s.now ∧ 0 ≤ s.bufferTime ∧ 0 ≤ s.nextStartTime

end LiveMusicHelper

/-- Number of `error` notifications in an event log. -/
def countErrors (l : List UiEvent) : Nat :=
  (l.filter fun e => match e with | UiEvent.error _ => true | _ => false).length

/-- A sample active prompt. -/
def P1 : Prompt where
  promptId := "p1"
  text := "jazz"
  weight := 1
  cc := 0
  color := "red"

/-- The same prompt with weight 0 (inactive). -/
def P0 : Prompt := { P1 with weight := 0 }

def goodSnapshot : List (String × Prompt) := [("p1", P1)]

def zeroSnapshot : List (String × Prompt) := [("p1", P0)]

/-- A helper that has stored one active prompt but not yet connected. -/
def sReady : LiveMusicHelper :=
  LiveMusicHelper.run LiveMusicHelper.init [Ev.setPromptsCall 0 goodSnapshot true]

/-- A helper that has stored one active prompt and performed `play()`. -/
def sConnected : LiveMusicHelper :=
  LiveMusicHelper.run LiveMusicHelper.init
    [Ev.setPromptsCall 0 goodSnapshot true, Ev.userPlay 0 true true]

/-- Set prompts, play, receive a filtered prompt, stop, play again (the
second `play` re-connects). -/
def tr3 : List Ev :=
  [Ev.setPromptsCall 0 goodSnapshot true, Ev.userPlay 0 true true,
   Ev.filteredMsg 1 "banned", Ev.userStop 2, Ev.userPlay 3 true true]

/-- Set prompts, play, one fragment at time 0, the buffer timer fires at
time 2, then the clock reaches time 10 with no further fragments. -/
def tr7 : List Ev :=
  [Ev.setPromptsCall 0 goodSnapshot true, Ev.userPlay 0 true true,
   Ev.frag 0 1, Ev.timerFire 2, Ev.tick 10]

/-- An anchored `playing` helper with the schedule ahead of the clock. -/
def sPlaying : LiveMusicHelper :=
  { LiveMusicHelper.init with
      playbackState := PlaybackState.playing
      nextStartTime := 5
      now := 4
      session := some 0 }

/-- A `loading` helper with an unanchored timeline. -/
def sLoading : LiveMusicHelper :=
  { LiveMusicHelper.init with playbackState := PlaybackState.loading }

/-- A helper with a connection attempt in flight. -/
def sPending : LiveMusicHelper :=
  { LiveMusicHelper.init with sessionPromise := some 7 }

/-- A helper whose filtered set already holds one text. -/
def sFiltered : LiveMusicHelper :=
  { LiveMusicHelper.init with filteredPrompts := ["a"] }

namespace LiveMusicHelper

@[simp] theorem setPlaybackState_now (s : LiveMusicHelper) (st : PlaybackState) :
    (s.setPlaybackState st).now = s.now := rfl

@[simp] theorem setPlaybackState_bufferTime (s : LiveMusicHelper) (st : PlaybackState) :
    (s.setPlaybackState st).bufferTime = s.bufferTime := rfl

@[simp] theorem setPlaybackState_nextStartTime (s : LiveMusicHelper) (st : PlaybackState) :
    (s.setPlaybackState st).nextStartTime = s.nextStartTime := rfl

@[simp] theorem setPlaybackState_filteredPrompts (s : LiveMusicHelper) (st : PlaybackState) :
    (s.setPlaybackState st).filteredPrompts = s.filteredPrompts := rfl

@[simp] theorem setPlaybackState_prompts (s : LiveMusicHelper) (st : PlaybackState) :
    (s.setPlaybackState st).prompts = s.prompts := rfl

@[simp] theorem connect_now (s : LiveMusicHelper) : (s.connect).1.now = s.now := rfl

@[simp] theorem connect_bufferTime (s : LiveMusicHelper) :
    (s.connect).1.bufferTime = s.bufferTime := rfl

@[simp] theorem connect_nextStartTime (s : LiveMusicHelper) :
    (s.connect).1.nextStartTime = s.nextStartTime := rfl

@[simp] theorem connect_filteredPrompts (s : LiveMusicHelper) :
    (s.connect).1.filteredPrompts = s.filteredPrompts := rfl

@[simp] theorem connect_prompts (s : LiveMusicHelper) :
    (s.connect).1.prompts = s.prompts := rfl

@[simp] theorem getSession_now (s : LiveMusicHelper) : (s.getSession).1.now = s.now := by
  unfold getSession
  cases s.sessionPromise <;> rfl

@[simp] theorem getSession_bufferTime (s : LiveMusicHelper) :
    (s.getSession).1.bufferTime = s.bufferTime := by
  unfold getSession
  cases s.sessionPromise <;> rfl

@[simp] theorem getSession_nextStartTime (s : LiveMusicHelper) :
    (s.getSession).1.nextStartTime = s.nextStartTime := by
  unfold getSession
  cases s.sessionPromise <;> rfl

@[simp] theorem getSession_filteredPrompts (s : LiveMusicHelper) :
    (s.getSession).1.filteredPrompts = s.filteredPrompts := by
  unfold getSession
  cases s.sessionPromise <;> rfl

@[simp] theorem getSession_prompts (s : LiveMusicHelper) :
    (s.getSession).1.prompts = s.prompts := by
  unfold getSession
  cases s.sessionPromise <;> rfl

@[simp] theorem pause_now (s : LiveMusicHelper) : (s.pause).now = s.now := rfl

@[simp] theorem pause_bufferTime (s : LiveMusicHelper) : (s.pause).bufferTime = s.bufferTime := rfl

@[simp] theorem pause_nextStartTime (s : LiveMusicHelper) : (s.pause).nextStartTime = 0 := rfl

@[simp] theorem pause_filteredPrompts (s : LiveMusicHelper) :
    (s.pause).filteredPrompts = s.filteredPrompts := rfl

@[simp] theorem pause_prompts (s : LiveMusicHelper) : (s.pause).prompts = s.prompts := rfl

@[simp] theorem pause_playbackState (s : LiveMusicHelper) :
    (s.pause).playbackState = PlaybackState.paused := rfl

@[simp] theorem stop_now (s : LiveMusicHelper) : (s.stop).now = s.now := rfl

@[simp] theorem stop_bufferTime (s : LiveMusicHelper) : (s.stop).bufferTime = s.bufferTime := rfl

@[simp] theorem stop_nextStartTime (s : LiveMusicHelper) : (s.stop).nextStartTime = 0 := rfl

@[simp] theorem stop_filteredPrompts (s : LiveMusicHelper) :
    (s.stop).filteredPrompts = s.filteredPrompts := rfl

@[simp] theorem stop_prompts (s : LiveMusicHelper) : (s.stop).prompts = s.prompts := rfl

@[simp] theorem handleDisconnect_now (s : LiveMusicHelper) :
    (s.handleDisconnect).now = s.now := rfl

@[simp] theorem handleDisconnect_bufferTime (s : LiveMusicHelper) :
    (s.handleDisconnect).bufferTime = s.bufferTime := rfl

@[simp] theorem handleDisconnect_nextStartTime (s : LiveMusicHelper) :
    (s.handleDisconnect).nextStartTime = 0 := rfl

@[simp] theorem handleDisconnect_filteredPrompts (s : LiveMusicHelper) :
    (s.handleDisconnect).filteredPrompts = s.filteredPrompts := rfl

@[simp] theorem handleDisconnect_prompts (s : LiveMusicHelper) :
    (s.handleDisconnect).prompts = s.prompts := rfl

@[simp] theorem onTransportError_fields (s : LiveMusicHelper) :
    (s.onTransportError).now = s.now ∧
    (s.onTransportError).bufferTime = s.bufferTime ∧
    (s.onTransportError).nextStartTime = 0 ∧
    (s.onTransportError).filteredPrompts = s.filteredPrompts := ⟨rfl, rfl, rfl, rfl⟩

@[simp] theorem onTransportClose_fields (s : LiveMusicHelper) :
    (s.onTransportClose).now = s.now ∧
    (s.onTransportClose).bufferTime = s.bufferTime ∧
    (s.onTransportClose).nextStartTime = 0 ∧
    (s.onTransportClose).filteredPrompts = s.filteredPrompts := ⟨rfl, rfl, rfl, rfl⟩

@[simp] theorem setWeightedPrompts_now (s : LiveMusicHelper)
    (ps : List (String × Prompt)) (ok : Bool) :
    (s.setWeightedPrompts ps ok).now = s.now := by
  simp only [setWeightedPrompts]
  split_ifs <;> simp

@[simp] theorem setWeightedPrompts_bufferTime (s : LiveMusicHelper)
    (ps : List (String × Prompt)) (ok : Bool) :
    (s.setWeightedPrompts ps ok).bufferTime = s.bufferTime := by
  simp only [setWeightedPrompts]
  split_ifs <;> simp

theorem setWeightedPrompts_nextStartTime (s : LiveMusicHelper)
    (ps : List (String × Prompt)) (ok : Bool) :
    (s.setWeightedPrompts ps ok).nextStartTime = 0 ∨
    (s.setWeightedPrompts ps ok).nextStartTime = s.nextStartTime := by
  simp only [setWeightedPrompts]
  split_ifs <;> simp

@[simp] theorem setWeightedPrompts_filteredPrompts (s : LiveMusicHelper)
    (ps : List (String × Prompt)) (ok : Bool) :
    (s.setWeightedPrompts ps ok).filteredPrompts = s.filteredPrompts := by
  simp only [setWeightedPrompts]
  split_ifs <;> simp

@[simp] theorem setWeightedPrompts_prompts (s : LiveMusicHelper)
    (ps : List (String × Prompt)) (ok : Bool) :
    (s.setWeightedPrompts ps ok).prompts = ps := by
  simp only [setWeightedPrompts]
  split_ifs <;> simp

@[simp] theorem play_now (s : LiveMusicHelper) (pOk plOk : Bool) :
    (s.play pOk plOk).now = s.now := by
  unfold play
  simp

@[simp] theorem play_bufferTime (s : LiveMusicHelper) (pOk plOk : Bool) :
    (s.play pOk plOk).bufferTime = s.bufferTime := by
  unfold play
  simp

theorem play_nextStartTime_nonneg (s : LiveMusicHelper) (pOk plOk : Bool)
    (h0 : 0 ≤ s.nextStartTime) : 0 ≤ (s.play pOk plOk).nextStartTime := by
  have he : (s.play pOk plOk).nextStartTime =
      (LiveMusicHelper.setWeightedPrompts
        { (s.setPlaybackState .loading).getSession.1 with
            session := some (s.setPlaybackState .loading).getSession.2 }
        (s.setPlaybackState .loading).getSession.1.prompts pOk).nextStartTime := rfl
  rw [he]
  rcases setWeightedPrompts_nextStartTime
      { (s.setPlaybackState .loading).getSession.1 with
          session := some (s.setPlaybackState .loading).getSession.2 }
      ((s.setPlaybackState .loading).getSession.1.prompts) pOk with h | h
  · rw [h]
  · rw [h]
    simpa using h0

@[simp] theorem play_filteredPrompts (s : LiveMusicHelper) (pOk plOk : Bool) :
    (s.play pOk plOk).filteredPrompts = s.filteredPrompts := by
  unfold play
  simp

@[simp] theorem play_prompts (s : LiveMusicHelper) (pOk plOk : Bool) :
    (s.play pOk plOk).prompts = s.prompts := by
  unfold play
  simp

@[simp] theorem fireBufferTimer_now (s : LiveMusicHelper) :
    (s.fireBufferTimer).now = s.now := rfl

@[simp] theorem fireBufferTimer_bufferTime (s : LiveMusicHelper) :
    (s.fireBufferTimer).bufferTime = s.bufferTime := rfl

@[simp] theorem fireBufferTimer_nextStartTime (s : LiveMusicHelper) :
    (s.fireBufferTimer).nextStartTime = s.nextStartTime := rfl

@[simp] theorem fireBufferTimer_filteredPrompts (s : LiveMusicHelper) :
    (s.fireBufferTimer).filteredPrompts = s.filteredPrompts := rfl

theorem processAudioChunks_now (s : LiveMusicHelper) (d : Rat) :
    (s.processAudioChunks d).now = s.now := by
  simp only [processAudioChunks]
  split_ifs <;> rfl

theorem processAudioChunks_bufferTime (s : LiveMusicHelper) (d : Rat) :
    (s.processAudioChunks d).bufferTime = s.bufferTime := by
  simp only [processAudioChunks]
  split_ifs <;> rfl

theorem processAudioChunks_filteredPrompts (s : LiveMusicHelper) (d : Rat) :
    (s.processAudioChunks d).filteredPrompts = s.filteredPrompts := by
  simp only [processAudioChunks]
  split_ifs <;> rfl

theorem processAudioChunks_nextStartTime_nonneg (s : LiveMusicHelper) (d : Rat)
    (h0 : 0 ≤ s.nextStartTime) (hn : 0 ≤ s.now) (hb : 0 ≤ s.bufferTime) (hd : 0 ≤ d) :
    0 ≤ (s.processAudioChunks d).nextStartTime := by
  simp only [processAudioChunks]
  split_ifs <;> (try dsimp only) <;> linarith

theorem playPause_now (s : LiveMusicHelper) (pOk plOk : Bool) :
    (s.playPause pOk plOk).now = s.now := by
  unfold playPause
  cases s.playbackState <;> simp

theorem playPause_bufferTime (s : LiveMusicHelper) (pOk plOk : Bool) :
    (s.playPause pOk plOk).bufferTime = s.bufferTime := by
  unfold playPause
  cases s.playbackState <;> simp

theorem playPause_nextStartTime_nonneg (s : LiveMusicHelper) (pOk plOk : Bool)
    (h0 : 0 ≤ s.nextStartTime) : 0 ≤ (s.playPause pOk plOk).nextStartTime := by
  unfold playPause
  cases s.playbackState <;>
    simp [play_nextStartTime_nonneg s pOk plOk h0]

theorem playPause_filteredPrompts (s : LiveMusicHelper) (pOk plOk : Bool) :
    (s.playPause pOk plOk).filteredPrompts = s.filteredPrompts := by
  unfold playPause
  cases s.playbackState <;> simp

theorem step_now (s : LiveMusicHelper) (e : Ev) : (s.step e).now = e.time := by
  cases e
  case timerFire t =>
    simp only [step, Ev.time]
    rcases htm : s.timers with _ | ⟨a, rest⟩ <;> simp [htm]
  all_goals
    simp [step, Ev.time, processAudioChunks_now, playPause_now,
      handleFilteredPrompt, handleSetupComplete]

theorem step_bufferTime (s : LiveMusicHelper) (e : Ev) :
    (s.step e).bufferTime = s.bufferTime := by
  cases e
  case timerFire t =>
    simp only [step]
    rcases htm : s.timers with _ | ⟨a, rest⟩ <;> simp [htm]
  all_goals
    simp [step, processAudioChunks_bufferTime, playPause_bufferTime,
      handleFilteredPrompt, handleSetupComplete]

/-- No handler ever removes an entry from the filtered-prompt set. -/
theorem step_filteredPrompts_mono (s : LiveMusicHelper) (e : Ev) (x : String)
    (hx : x ∈ s.filteredPrompts) : x ∈ (s.step e).filteredPrompts := by
  cases e
  case timerFire t =>
    simp only [step]
    rcases htm : s.timers with _ | ⟨a, rest⟩ <;> simp [htm, hx]
  case filteredMsg t txt =>
    simp only [step, handleFilteredPrompt]
    split_ifs <;> simp [hx]
  all_goals
    simp [step, processAudioChunks_filteredPrompts, playPause_filteredPrompts,
      handleSetupComplete, hx]

theorem Inv_step (s : LiveMusicHelper) (e : Ev) (h : Inv s)
    (ht : s.now ≤ e.time) (hd : e.durOk = true) : Inv (s.step e) := by
  obtain ⟨h1, h2, h3⟩ := h
  have hte : (0 : Rat) ≤ e.time := le_trans h1 ht
  refine ⟨?_, ?_, ?_⟩
  · rw [step_now]
    exact hte
  · rw [step_bufferTime]
    exact h2
  · cases e
    case frag t d =>
      have hd0 : (0 : Rat) ≤ d := by simpa [Ev.durOk] using hd
      simp only [step]
      exact processAudioChunks_nextStartTime_nonneg _ d h3 hte h2 hd0
    case timerFire t =>
      simp only [step]
      rcases htm : s.timers with _ | ⟨a, rest⟩ <;> simpa [htm] using h3
    case tick t =>
      simpa [step] using h3
    case userPlay t pOk plOk =>
      simp only [step]
      exact play_nextStartTime_nonneg _ pOk plOk h3
    case userPause t =>
      simp [step]
    case userStop t =>
      simp [step]
    case userPlayPause t pOk plOk =>
      simp only [step]
      exact playPause_nextStartTime_nonneg _ pOk plOk h3
    case setPromptsCall t ps ok =>
      simp only [step]
      rcases setWeightedPrompts_nextStartTime _ ps ok with hh | hh <;> rw [hh]
      exact h3
    case transportError t =>
      simp [step]
    case transportClose t =>
      simp [step]
    case filteredMsg t txt =>
      simpa [step, handleFilteredPrompt] using h3
    case setupMsg t =>
      simpa [step, handleSetupComplete] using h3

@[simp] theorem pause_events (s : LiveMusicHelper) :
    (s.pause).events = s.events ++ [UiEvent.stateChanged PlaybackState.paused] := rfl

@[simp] theorem pause_outbound (s : LiveMusicHelper) :
    (s.pause).outbound =
      if s.session.isSome then s.outbound ++ [OutMsg.pause] else s.outbound := rfl

@[simp] theorem setPlaybackState_outbound (s : LiveMusicHelper) (st : PlaybackState) :
    (s.setPlaybackState st).outbound = s.outbound := rfl

@[simp] theorem connect_outbound (s : LiveMusicHelper) :
    (s.connect).1.outbound = s.outbound := rfl

@[simp] theorem getSession_outbound (s : LiveMusicHelper) :
    (s.getSession).1.outbound = s.outbound := by
  unfold getSession
  cases s.sessionPromise <;> rfl

theorem countErrors_append (l l' : List UiEvent) :
    countErrors (l ++ l') = countErrors l + countErrors l' := by
  simp [countErrors, List.filter_append]

/-- One effective `setWeightedPrompts` with a nonempty active set, an
existing session, and a successful transport send appends exactly the
prompt-update message. -/
theorem setWeightedPrompts_sends (s : LiveMusicHelper) (ps : List (String × Prompt))
    (hact : LiveMusicHelper.activeOf s.filteredPrompts ps ≠ [])
    (v : Nat) (hs : s.session = some v) :
    (s.setWeightedPrompts ps true).outbound =
      s.outbound ++
        [OutMsg.setPrompts (LiveMusicHelper.activeOf s.filteredPrompts ps)] := by
  simp [setWeightedPrompts, activePrompts, hact, hs]

theorem Inv_run (es : List Ev) : ∀ s : LiveMusicHelper, Inv s →
    LiveMusicHelper.validFrom s.now es = true → Inv (s.run es) := by
  induction es with
  | nil =>
    intro s h _
    simpa [run] using h
  | cons e es ih =>
    intro s h hv
    simp only [validFrom, Bool.and_eq_true, decide_eq_true_eq] at hv
    obtain ⟨⟨hte, hdur⟩, hrest⟩ := hv
    have h1 : Inv (s.step e) := Inv_step s e h hte hdur
    have h2 : (s.step e).now = e.time := step_now s e
    exact ih (s.step e) h1 (by rw [h2]; exact hrest)

end LiveMusicHelper

/-- C1: for every audio fragment processed while the playback state is
`playing` or `loading`, when no underrun occurs (`nextStartTime` is at or
after the current device time) and the timeline is anchored
(`nextStartTime ≠ 0`), the buffer is scheduled to start exactly at the
current `nextStartTime` and `nextStartTime` then advances by exactly the
buffer's duration, so successive scheduled start times are strictly
increasing and gapless. -/
theorem claim_C1 (s : LiveMusicHelper) (d : Rat)
    (hst : s.playbackState = PlaybackState.playing ∨ s.playbackState = PlaybackState.loading)
    (hanch : s.nextStartTime ≠ 0)
    (hno : s.now ≤ s.nextStartTime) (hd : 0 < d) :
    (s.processAudioChunks d).scheduled = s.scheduled ++ [s.nextStartTime] ∧
    (s.processAudioChunks d).nextStartTime = s.nextStartTime + d ∧
    s.nextStartTime < (s.processAudioChunks d).nextStartTime := by
  have hps : ¬(s.playbackState = PlaybackState.paused ∨
      s.playbackState = PlaybackState.stopped) := by
    rcases hst with h | h <;> simp [h]
  have hlt : ¬ s.nextStartTime < s.now := not_lt.mpr hno
  have hres : s.processAudioChunks d =
      { s with
          scheduled := s.scheduled ++ [s.nextStartTime]
          nextStartTime := s.nextStartTime + d } := by
    simp only [LiveMusicHelper.processAudioChunks, if_neg hps, if_neg hanch, if_neg hlt]
  rw [hres]
  refine ⟨rfl, rfl, ?_⟩
  show s.nextStartTime < s.nextStartTime + d
  linarith

theorem claim_C1_witness :
    (sPlaying.playbackState = PlaybackState.playing ∨
      sPlaying.playbackState = PlaybackState.loading) ∧
    sPlaying.nextStartTime ≠ 0 ∧ sPlaying.now ≤ sPlaying.nextStartTime ∧ (0 : Rat) < 1 ∧
    ((sPlaying.processAudioChunks 1).scheduled = sPlaying.scheduled ++ [sPlaying.nextStartTime] ∧
     (sPlaying.processAudioChunks 1).nextStartTime = sPlaying.nextStartTime + 1 ∧
     sPlaying.nextStartTime < (sPlaying.processAudioChunks 1).nextStartTime) :=
  ⟨Or.inl rfl, by decide, by decide, by decide,
   claim_C1 sPlaying 1 (Or.inl rfl) (by decide) (by decide) (by decide)⟩

/-- C2: a fragment processed while `playing` or `loading` with the anchored
schedule behind the clock (`nextStartTime ≠ 0` and `nextStartTime < now`)
forces the state machine to `loading`, resets `nextStartTime` to 0, and
schedules nothing; a fragment arriving with `nextStartTime = 0` then
re-anchors the timeline to `now + bufferTime`. -/
theorem claim_C2 (s : LiveMusicHelper) (d : Rat)
    (hst : s.playbackState = PlaybackState.playing ∨ s.playbackState = PlaybackState.loading) :
    (s.nextStartTime ≠ 0 → s.nextStartTime < s.now →
      (s.processAudioChunks d).playbackState = PlaybackState.loading ∧
      (s.processAudioChunks d).nextStartTime = 0 ∧
      (s.processAudioChunks d).scheduled = s.scheduled ∧
      (s.processAudioChunks d).events =
        s.events ++ [UiEvent.stateChanged PlaybackState.loading]) ∧
    (0 ≤ s.bufferTime → s.nextStartTime = 0 →
      (s.processAudioChunks d).scheduled = s.scheduled ++ [s.now + s.bufferTime] ∧
      (s.processAudioChunks d).nextStartTime = s.now + s.bufferTime + d) := by
  have hps : ¬(s.playbackState = PlaybackState.paused ∨
      s.playbackState = PlaybackState.stopped) := by
    rcases hst with h | h <;> simp [h]
  constructor
  · intro hanch hlt
    have hres : s.processAudioChunks d =
        { s with
            playbackState := PlaybackState.loading
            events := s.events ++ [UiEvent.stateChanged PlaybackState.loading]
            nextStartTime := 0 } := by
      simp only [LiveMusicHelper.processAudioChunks, if_neg hps, if_neg hanch, if_pos hlt,
        LiveMusicHelper.setPlaybackState]
    rw [hres]
    exact ⟨rfl, rfl, rfl, rfl⟩
  · intro hb h0
    have hnlt : ¬(s.now + s.bufferTime < s.now) := by linarith
    have hres : s.processAudioChunks d =
        { s with
            nextStartTime := s.now + s.bufferTime + d
            timers := s.timers ++ [s.now + s.bufferTime]
            scheduled := s.scheduled ++ [s.now + s.bufferTime] } := by
      simp only [LiveMusicHelper.processAudioChunks, if_neg hps, if_pos h0, if_neg hnlt]
    rw [hres]
    exact ⟨rfl, rfl⟩

theorem claim_C2_witness :
    (sPlaying.playbackState = PlaybackState.playing ∨
      sPlaying.playbackState = PlaybackState.loading) ∧
    ((0 : Rat) ≤ sLoading.bufferTime ∧ sLoading.nextStartTime = 0) ∧
    ({ sPlaying with nextStartTime := 3 } : LiveMusicHelper).nextStartTime ≠ 0 ∧
    ({ sPlaying with nextStartTime := 3 } : LiveMusicHelper).nextStartTime <
      ({ sPlaying with nextStartTime := 3 } : LiveMusicHelper).now ∧
    (({ sPlaying with nextStartTime := 3 } : LiveMusicHelper).processAudioChunks 1).playbackState
      = PlaybackState.loading ∧
    ((sLoading.processAudioChunks 1).scheduled =
      sLoading.scheduled ++ [sLoading.now + sLoading.bufferTime]) :=
  ⟨Or.inl rfl, ⟨by decide, by decide⟩, by decide, by decide,
   ((claim_C2 { sPlaying with nextStartTime := 3 } 1 (Or.inl rfl)).1
      (by decide) (by decide)).1,
   ((claim_C2 sLoading 1 (Or.inr rfl)).2 (by decide) (by decide)).1⟩

/-- C4: transport `onerror` and `onclose` both run the shared disconnect
handler: the state machine is forced to `stopped`, the output gain is set
to 0 and ramped to 1 over 0.1 s, `nextStartTime` is reset to 0, the session
handle and pending-connection reference are cleared, an error notification
is dispatched, and no outbound control message is sent. -/
theorem claim_C4 (s : LiveMusicHelper) :
    ((s.onTransportError).playbackState = PlaybackState.stopped ∧
     (s.onTransportError).gainLog = s.gainLog ++
       [GainEvent.setValue 0 s.now, GainEvent.linearRampTo 1 (s.now + 1 / 10)] ∧
     (s.onTransportError).nextStartTime = 0 ∧
     (s.onTransportError).session = none ∧
     (s.onTransportError).sessionPromise = none ∧
     (s.onTransportError).events = s.events ++
       [UiEvent.stateChanged PlaybackState.stopped,
        UiEvent.error "Connection error, please restart audio."] ∧
     (s.onTransportError).outbound = s.outbound) ∧
    ((s.onTransportClose).playbackState = PlaybackState.stopped ∧
     (s.onTransportClose).gainLog = s.gainLog ++
       [GainEvent.setValue 0 s.now, GainEvent.linearRampTo 1 (s.now + 1 / 10)] ∧
     (s.onTransportClose).nextStartTime = 0 ∧
     (s.onTransportClose).session = none ∧
     (s.onTransportClose).sessionPromise = none ∧
     (s.onTransportClose).events = s.events ++
       [UiEvent.stateChanged PlaybackState.stopped,
        UiEvent.error "Connection closed, please restart audio."] ∧
     (s.onTransportClose).outbound = s.outbound) := by
  constructor <;>
    exact ⟨rfl, rfl, rfl, rfl, rfl,
      by simp [LiveMusicHelper.onTransportError, LiveMusicHelper.onTransportClose,
        LiveMusicHelper.handleDisconnect, LiveMusicHelper.setPlaybackState], rfl⟩

/-- C6: while a connection attempt is in flight the session accessor
returns the same in-flight result without opening a second connection, and
every `connect()` invokes the client factory afresh. -/
theorem claim_C6 (s : LiveMusicHelper) (p : Nat) :
    (s.sessionPromise = some p → s.getSession = (s, p)) ∧
    (s.connect).1.factoryCalls = s.factoryCalls + 1 ∧
    (s.sessionPromise = none → (s.getSession).1.factoryCalls = s.factoryCalls + 1) := by
  refine ⟨fun h => ?_, rfl, fun h => ?_⟩ <;>
    simp [LiveMusicHelper.getSession, h, LiveMusicHelper.connect]

theorem claim_C6_witness :
    sPending.sessionPromise = some 7 ∧ sPending.getSession = (sPending, 7) :=
  ⟨rfl, (claim_C6 sPending 7).1 rfl⟩

/-- C8: `playPause()` dispatches on the current state: `playing` invokes
`pause()`, `paused` and `stopped` invoke `play()`, and `loading` invokes
`stop()`. -/
theorem claim_C8 (s : LiveMusicHelper) (pOk plOk : Bool) :
    (s.playbackState = PlaybackState.playing → s.playPause pOk plOk = s.pause) ∧
    (s.playbackState = PlaybackState.paused ∨ s.playbackState = PlaybackState.stopped →
      s.playPause pOk plOk = s.play pOk plOk) ∧
    (s.playbackState = PlaybackState.loading → s.playPause pOk plOk = s.stop) := by
  refine ⟨fun h => ?_, fun h => ?_, fun h => ?_⟩
  · simp [LiveMusicHelper.playPause, h]
  · rcases h with h | h <;> simp [LiveMusicHelper.playPause, h]
  · simp [LiveMusicHelper.playPause, h]

theorem claim_C8_witness :
    sPlaying.playbackState = PlaybackState.playing ∧
    sPlaying.playPause true true = sPlaying.pause :=
  ⟨rfl, (claim_C8 sPlaying true true).1 rfl⟩

/-- C9: a fragment that anchors an unscheduled timeline arms a one-shot
timer for `bufferTime` seconds from now, and the timer's callback sets the
playback state to `playing` unconditionally — in particular even right
after `pause()`, `stop()`, or a transport disconnect. -/
theorem claim_C9 (s : LiveMusicHelper) (d : Rat)
    (hanch : s.nextStartTime = 0)
    (hst : ¬(s.playbackState = PlaybackState.paused ∨
      s.playbackState = PlaybackState.stopped)) :
    (s.processAudioChunks d).timers = s.timers ++ [s.now + s.bufferTime] ∧
    (∀ s' : LiveMusicHelper, (s'.fireBufferTimer).playbackState = PlaybackState.playing) ∧
    (∀ s' : LiveMusicHelper,
      ((s'.pause).fireBufferTimer).playbackState = PlaybackState.playing ∧
      ((s'.stop).fireBufferTimer).playbackState = PlaybackState.playing ∧
      ((s'.handleDisconnect).fireBufferTimer).playbackState = PlaybackState.playing) := by
  refine ⟨?_, fun s' => rfl, fun s' => ⟨rfl, rfl, rfl⟩⟩
  simp only [LiveMusicHelper.processAudioChunks, if_neg hst, if_pos hanch]
  split_ifs <;> rfl

theorem claim_C9_witness :
    sLoading.nextStartTime = 0 ∧
    ¬(sLoading.playbackState = PlaybackState.paused ∨
      sLoading.playbackState = PlaybackState.stopped) ∧
    (sLoading.processAudioChunks 1).timers =
      sLoading.timers ++ [sLoading.now + sLoading.bufferTime] :=
  ⟨rfl, by decide, (claim_C9 sLoading 1 rfl (by decide)).1⟩

namespace LiveMusicHelper

@[simp] theorem countErrors_nil : countErrors [] = 0 := rfl

@[simp] theorem countErrors_cons_error (m : String) (l : List UiEvent) :
    countErrors (UiEvent.error m :: l) = countErrors l + 1 := by
  simp [countErrors, List.filter_cons]

@[simp] theorem countErrors_cons_stateChanged (st : PlaybackState) (l : List UiEvent) :
    countErrors (UiEvent.stateChanged st :: l) = countErrors l := by
  simp [countErrors, List.filter_cons]

@[simp] theorem countErrors_cons_filteredPrompt (txt : String) (l : List UiEvent) :
    countErrors (UiEvent.filteredPrompt txt :: l) = countErrors l := by
  simp [countErrors, List.filter_cons]

/-- `play()` with a nonempty active set and both transport sends
succeeding appends exactly the prompt update followed by the play
command. -/
theorem play_outbound (s : LiveMusicHelper) (hact : s.activePrompts ≠ []) :
    (s.play true true).outbound =
      s.outbound ++ [OutMsg.setPrompts s.activePrompts, OutMsg.play] := by
  have key : (s.play true true).outbound =
      (LiveMusicHelper.setWeightedPrompts
        { (s.setPlaybackState PlaybackState.loading).getSession.1 with
            session := some (s.setPlaybackState PlaybackState.loading).getSession.2 }
        (s.setPlaybackState PlaybackState.loading).getSession.1.prompts true).outbound
        ++ [OutMsg.play] := rfl
  have hact2 : LiveMusicHelper.activeOf
      (({ (s.setPlaybackState PlaybackState.loading).getSession.1 with
          session := some (s.setPlaybackState PlaybackState.loading).getSession.2 }
        : LiveMusicHelper).filteredPrompts)
      ((s.setPlaybackState PlaybackState.loading).getSession.1.prompts) =
      s.activePrompts := by
    simp [LiveMusicHelper.activePrompts]
  rw [key, LiveMusicHelper.setWeightedPrompts_sends _ _
      (by rw [hact2]; exact hact)
      ((s.setPlaybackState PlaybackState.loading).getSession.2) rfl]
  simp [hact2, LiveMusicHelper.activePrompts]

end LiveMusicHelper

/-- C3 counterexample: after a filtered prompt is recorded, `stop()` is
called, and a second `play()` re-connects (the factory has run twice), the
filtered-prompt set still contains the text — a fresh connection does not
start with an empty filtered set. -/
theorem claim_C3_cex :
    LiveMusicHelper.validFrom 0 tr3 = true ∧
    (LiveMusicHelper.run LiveMusicHelper.init tr3).factoryCalls = 2 ∧
    (LiveMusicHelper.run LiveMusicHelper.init tr3).filteredPrompts = ["banned"] := by
  decide

/-- C3 (amended): the filtered-prompt set is never reset — `connect()`,
`stop()`, and the disconnect handler all leave it unchanged — and no
handler ever removes an entry from it. -/
theorem claim_C3 (s : LiveMusicHelper) (e : Ev) (x : String) :
    ((s.connect).1.filteredPrompts = s.filteredPrompts ∧
     (s.stop).filteredPrompts = s.filteredPrompts ∧
     (s.handleDisconnect).filteredPrompts = s.filteredPrompts) ∧
    (x ∈ s.filteredPrompts → x ∈ (s.step e).filteredPrompts) :=
  ⟨⟨rfl, rfl, rfl⟩, fun hx => LiveMusicHelper.step_filteredPrompts_mono s e x hx⟩

theorem claim_C3_witness :
    "a" ∈ sFiltered.filteredPrompts ∧
    "a" ∈ (sFiltered.step (Ev.tick 0)).filteredPrompts :=
  ⟨by decide, (claim_C3 sFiltered (Ev.tick 0) "a").2 (by decide)⟩

/-- C5 counterexample: on the empty-active-prompt path with a live
session, `pause()` sends a pause control message on the transport, so it
is not true that nothing is sent to the remote session. -/
theorem claim_C5_cex :
    sConnected.session.isSome = true ∧
    LiveMusicHelper.activePrompts { sConnected with prompts := zeroSnapshot } = [] ∧
    (sConnected.setWeightedPrompts zeroSnapshot true).outbound =
      sConnected.outbound ++ [OutMsg.pause] ∧
    (sConnected.setWeightedPrompts zeroSnapshot true).outbound ≠ sConnected.outbound := by
  decide

/-- C5 (amended): an effective `setWeightedPrompts` whose active set is
empty emits exactly one error notification and transitions to `paused`,
and sends no prompt-update message; the `pause()` it performs does send a
pause control message exactly when a session handle exists. -/
theorem claim_C5 (s : LiveMusicHelper) (ps : List (String × Prompt)) (ok : Bool)
    (hempty : LiveMusicHelper.activePrompts { s with prompts := ps } = []) :
    (s.setWeightedPrompts ps ok).playbackState = PlaybackState.paused ∧
    countErrors (s.setWeightedPrompts ps ok).events = countErrors s.events + 1 ∧
    (s.setWeightedPrompts ps ok).outbound =
      s.outbound ++ (if s.session.isSome then [OutMsg.pause] else []) := by
  have he : LiveMusicHelper.activeOf s.filteredPrompts ps = [] := by
    simpa [LiveMusicHelper.activePrompts] using hempty
  have hres : s.setWeightedPrompts ps ok =
      LiveMusicHelper.pause
        { s with
            prompts := ps
            events := s.events ++
              [UiEvent.error "There needs to be one active prompt to play."] } := by
    simp [LiveMusicHelper.setWeightedPrompts, LiveMusicHelper.activePrompts, he]
  rw [hres]
  refine ⟨LiveMusicHelper.pause_playbackState _, ?_, ?_⟩
  · rw [LiveMusicHelper.pause_events]
    show countErrors ((s.events ++
        [UiEvent.error "There needs to be one active prompt to play."]) ++
        [UiEvent.stateChanged PlaybackState.paused]) = countErrors s.events + 1
    simp [LiveMusicHelper.countErrors_append]
  · rw [LiveMusicHelper.pause_outbound]
    show (if s.session.isSome then s.outbound ++ [OutMsg.pause] else s.outbound) =
      s.outbound ++ (if s.session.isSome then [OutMsg.pause] else [])
    cases hb : s.session.isSome <;> simp

theorem claim_C5_witness :
    LiveMusicHelper.activePrompts { sConnected with prompts := zeroSnapshot } = [] ∧
    (sConnected.setWeightedPrompts zeroSnapshot true).playbackState = PlaybackState.paused ∧
    countErrors (sConnected.setWeightedPrompts zeroSnapshot true).events =
      countErrors sConnected.events + 1 ∧
    (sConnected.setWeightedPrompts zeroSnapshot true).outbound =
      sConnected.outbound ++ (if sConnected.session.isSome then [OutMsg.pause] else []) :=
  ⟨by decide, (claim_C5 sConnected zeroSnapshot true (by decide)).1,
   (claim_C5 sConnected zeroSnapshot true (by decide)).2.1,
   (claim_C5 sConnected zeroSnapshot true (by decide)).2.2⟩

/-- C7 counterexample: a reachable state (anchor a fragment at time 0, let
the buffer timer fire at time 2, then let the clock reach time 10 with no
further fragments) is `playing` with `nextStartTime = 3`, which is neither
0 nor at or beyond the device time 10. -/
theorem claim_C7_cex :
    LiveMusicHelper.validFrom 0 tr7 = true ∧
    (LiveMusicHelper.run LiveMusicHelper.init tr7).playbackState = PlaybackState.playing ∧
    (LiveMusicHelper.run LiveMusicHelper.init tr7).nextStartTime ≠ 0 ∧
    (LiveMusicHelper.run LiveMusicHelper.init tr7).nextStartTime <
      (LiveMusicHelper.run LiveMusicHelper.init tr7).now := by
  have hne : (PlaybackState.loading = PlaybackState.paused ∨
      PlaybackState.loading = PlaybackState.stopped) = False := by simp
  refine ⟨by decide, ?_, ?_, ?_⟩ <;>
    norm_num [hne, LiveMusicHelper.run, List.foldl, LiveMusicHelper.step, Ev.time,
      LiveMusicHelper.play, LiveMusicHelper.setWeightedPrompts,
      LiveMusicHelper.activePrompts, LiveMusicHelper.activeOf,
      LiveMusicHelper.getSession, LiveMusicHelper.connect,
      LiveMusicHelper.setPlaybackState, LiveMusicHelper.processAudioChunks,
      LiveMusicHelper.pause, LiveMusicHelper.fireBufferTimer,
      LiveMusicHelper.init, tr7, goodSnapshot, P1]

/-- C7 (amended): in every reachable state `nextStartTime` is nonnegative,
and immediately after any fragment-processing step (in a non-`paused`,
non-`stopped` state, with nonnegative duration and lookahead)
`nextStartTime` is either 0 or at or beyond the device time of that step;
between fragments, while `playing`, the device time may overtake
`nextStartTime` (the underrun detected only at the next fragment). -/
theorem claim_C7 :
    (∀ es : List Ev, LiveMusicHelper.validFrom 0 es = true →
      0 ≤ (LiveMusicHelper.run LiveMusicHelper.init es).nextStartTime) ∧
    (∀ (s : LiveMusicHelper) (d : Rat), 0 ≤ d → 0 ≤ s.bufferTime →
      ¬(s.playbackState = PlaybackState.paused ∨ s.playbackState = PlaybackState.stopped) →
      (s.processAudioChunks d).nextStartTime = 0 ∨
        s.now ≤ (s.processAudioChunks d).nextStartTime) := by
  constructor
  · intro es hv
    have hInv : LiveMusicHelper.Inv LiveMusicHelper.init := by
      unfold LiveMusicHelper.Inv
      exact ⟨by decide, by decide, by decide⟩
    exact (LiveMusicHelper.Inv_run es LiveMusicHelper.init hInv hv).2.2
  · intro s d hd hb hps
    by_cases h0 : s.nextStartTime = 0
    · right
      have hnlt : ¬(s.now + s.bufferTime < s.now) := by linarith
      have hres : s.processAudioChunks d =
          { s with
              nextStartTime := s.now + s.bufferTime + d
              timers := s.timers ++ [s.now + s.bufferTime]
              scheduled := s.scheduled ++ [s.now + s.bufferTime] } := by
        simp only [LiveMusicHelper.processAudioChunks, if_neg hps, if_pos h0, if_neg hnlt]
      rw [hres]
      show s.now ≤ s.now + s.bufferTime + d
      linarith
    · by_cases hlt : s.nextStartTime < s.now
      · left
        have hres : s.processAudioChunks d =
            { s with
                playbackState := PlaybackState.loading
                events := s.events ++ [UiEvent.stateChanged PlaybackState.loading]
                nextStartTime := 0 } := by
          simp only [LiveMusicHelper.processAudioChunks, if_neg hps, if_neg h0, if_pos hlt,
            LiveMusicHelper.setPlaybackState]
        rw [hres]
      · right
        have hres : s.processAudioChunks d =
            { s with
                scheduled := s.scheduled ++ [s.nextStartTime]
                nextStartTime := s.nextStartTime + d } := by
          simp only [LiveMusicHelper.processAudioChunks, if_neg hps, if_neg h0, if_neg hlt]
        rw [hres]
        show s.now ≤ s.nextStartTime + d
        push_neg at hlt
        linarith

theorem claim_C7_witness :
    (LiveMusicHelper.validFrom 0 tr7 = true ∧
      0 ≤ (LiveMusicHelper.run LiveMusicHelper.init tr7).nextStartTime) ∧
    ((0 : Rat) ≤ 1 ∧ 0 ≤ sLoading.bufferTime ∧
      ¬(sLoading.playbackState = PlaybackState.paused ∨
        sLoading.playbackState = PlaybackState.stopped)) ∧
    ((sLoading.processAudioChunks 1).nextStartTime = 0 ∨
      sLoading.now ≤ (sLoading.processAudioChunks 1).nextStartTime) :=
  ⟨⟨by decide, claim_C7.1 tr7 (by decide)⟩,
   ⟨by decide, by decide, by decide⟩,
   claim_C7.2 sLoading 1 (by decide) (by decide) (by decide)⟩

/-- C10: every effective `setWeightedPrompts` stores its argument as the
prompt snapshot unconditionally (also on the empty-active error path and
on a failed transport send), `play()` leaves the stored snapshot in place,
and when the stored snapshot has a nonempty active set a `play()` with
successful sends flushes exactly that snapshot's active subset. -/
theorem claim_C10 (s : LiveMusicHelper) (ps : List (String × Prompt)) (ok pOk plOk : Bool) :
    (s.setWeightedPrompts ps ok).prompts = ps ∧
    (s.play pOk plOk).prompts = s.prompts ∧
    (s.activePrompts ≠ [] →
      (s.play true true).outbound =
        s.outbound ++ [OutMsg.setPrompts s.activePrompts, OutMsg.play]) :=
  ⟨LiveMusicHelper.setWeightedPrompts_prompts s ps ok,
   LiveMusicHelper.play_prompts s pOk plOk,
   fun hact => LiveMusicHelper.play_outbound s hact⟩

theorem claim_C10_witness :
    sReady.activePrompts ≠ [] ∧
    (sReady.setWeightedPrompts zeroSnapshot false).prompts = zeroSnapshot ∧
    (sReady.play true true).outbound =
      sReady.outbound ++ [OutMsg.setPrompts sReady.activePrompts, OutMsg.play] :=
  ⟨by decide, (claim_C10 sReady zeroSnapshot false true true).1,
   (claim_C10 sReady zeroSnapshot false true true).2.2 (by decide)⟩
